import Mathlib

/-!
Shallow embedding of `s3-project-backup.py`, a small CLI tool that mirrors a
project directory to an S3 prefix through `aws s3 sync`.  Pure helpers are
translated directly; the filesystem, the interactive prompts and the spawned
child processes are modelled by explicit state threaded through the functions.
-/

/-- The four-field configuration record (the `Config` TypedDict, source lines
38-43).  The Python annotation admits `None` per field; configurations are
modelled at their string values, the shape `init` writes and every specified
scenario uses. -/
structure Config where
  aws_profile : String
  s3_bucket : String
  s3_path_prefix : String
  s3_storage_class : String
deriving DecidableEq, Repr

/-- The `EXCLUDE_ITEMS` constant (source lines 16-23). -/
def EXCLUDE_ITEMS : List String :=
  ["upload.sh", ".gitignore", "s3-project-backup.json",
   "s3-project-backup.py", "_DS_Store", ".DS_Store"]

/-- The `DUPLICATED_ITEMS` constant (source line 24). -/
def DUPLICATED_ITEMS : List String := ["README.md"]

/-- The `GIT_IGNORE` template (source lines 26-31). -/
def GIT_IGNORE : String := "\n/*\n!.gitignore\n!README.md\n!s3-project-backup.json\n"

/-- Python `str.strip` over the character list: whitespace removed from both
ends. -/
def pyStrip (l : List Char) : List Char :=
  ((l.dropWhile Char.isWhitespace).reverse.dropWhile Char.isWhitespace).reverse

/-- The `CLEAN_IGNORE` constant (source lines 33-35): the exclude list plus the allow-listed
names recovered from the gitignore template — the template split on newlines
with the first two chunks dropped, keeping the truthy lines and the lines
opening with an exclamation mark, each with its first character removed and
stripped.  The string operations are carried out on the character lists
(Python keeps empty chunks when splitting on an explicit separator, which is
exactly `List.splitOn`). -/
def CLEAN_IGNORE : List String :=
  EXCLUDE_ITEMS ++
    (((GIT_IGNORE.data.splitOn '\n').drop 2).filter
        (fun p => (p != []) || ['!'].isPrefixOf p)).map
      (fun p => String.mk (pyStrip (p.drop 1)))

/-- The `load_conf` function (source lines 50-61).  `confFile` is the parsed project config
file, `none` when the file is absent (the source then raises, terminating the
process); `dirName` is the resolved current directory's base name. -/
def load_conf (confFile : Option Config) (dirName : String) : Except String Config :=
  match confFile with
  | none => .error "s3-project-backup.json not found"
  | some conf =>
      if conf.s3_path_prefix = "DIRNAME" then
        .ok { conf with s3_path_prefix := dirName }
      else
        .ok conf

/-- The `build_s3_path` function (source lines 72-73). -/
def build_s3_path (conf : Config) : String :=
  "s3://" ++ conf.s3_bucket ++ "/" ++ conf.s3_path_prefix ++ "/"

/-- The `check_no_local_files` function (source lines 76-80) over the names of the direct
children of the current directory. -/
def check_no_local_files (entries : List String) : Bool :=
  entries.all (fun d => EXCLUDE_ITEMS.contains d || DUPLICATED_ITEMS.contains d)

/-- The `check_no_conf` function (source lines 83-84): whether the project config file
exists (the source returns `CONF_PATH.exists()` despite the name). -/
def check_no_conf (confFile : Option Config) : Bool := confFile.isSome

/-- Python `shlex.quote`: a token is left bare when every character is an
ASCII word character or one of `@ % + = : , . /` or a dash, otherwise single-quoted with
embedded single quotes escaped. -/
def shlex_quote (s : String) : String :=
  if s = "" then "\x27\x27"
  else if s.data.all (fun c => c.isAlphanum || c = '_' || "@%+=:,./-".contains c) then s
  else "\x27" ++ (s.replace "\x27" "\x27\"\x27\"\x27") ++ "\x27"

/-- Python `shlex.join`, used by `run_command` (source line 46) for the audit
line printed before each spawned command. -/
def shlex_join (cmd : List String) : String :=
  String.intercalate " " (cmd.map shlex_quote)

/-- The argument vector constructed by `upload` (source lines 93-105) from the
loaded config. -/
def upload_cmd (conf : Config) (dryrun : Bool) : List String :=
  let cmd := ["aws", "--profile=" ++ conf.aws_profile, "s3", "sync", ".",
      build_s3_path conf,
      "--storage-class=" ++ conf.s3_storage_class, "--delete"]
    ++ EXCLUDE_ITEMS.map (fun e => "--exclude=" ++ e)
  if dryrun then cmd ++ ["--dryrun"] else cmd

/-- The argument vector constructed by `download` (source lines 116-127) from
the loaded config. -/
def download_cmd (conf : Config) (dryrun : Bool) : List String :=
  let cmd := ["aws", "--profile=" ++ conf.aws_profile, "s3", "sync",
      build_s3_path conf, ".", "--delete"]
    ++ EXCLUDE_ITEMS.map (fun e => "--exclude=" ++ e)
  if dryrun then cmd ++ ["--dryrun"] else cmd

/-- The answers the user types at the four `input()` prompts of `init`. -/
structure Prompts where
  aws_profile : String
  s3_bucket : String
  s3_path_prefix : String
  s3_storage_class : String
deriving DecidableEq, Repr

/-- The prompt-filling phase of `init` (source lines 146-163): each field
still empty is prompted for; the path-prefix prompt falls back to the current
directory's base name on empty input and the storage-class prompt falls back
to `STANDARD`. -/
def initFill (conf : Config) (prompts : Prompts) (dirName : String) : Config :=
  let c1 := if conf.aws_profile = "" then
      { conf with aws_profile := prompts.aws_profile } else conf
  let c2 := if c1.s3_bucket = "" then
      { c1 with s3_bucket := prompts.s3_bucket } else c1
  let c3 := if c2.s3_path_prefix = "" then
      { c2 with s3_path_prefix :=
          if prompts.s3_path_prefix = "" then dirName else prompts.s3_path_prefix }
    else c2
  if c3.s3_storage_class = "" then
    { c3 with s3_storage_class :=
        if prompts.s3_storage_class = "" then "STANDARD" else prompts.s3_storage_class }
  else c3

/-- The files `init` writes on success: the config (dumped as JSON holding
exactly its four fields), the gitignore template, and the readme when it was
absent. -/
structure InitResult where
  conf : Config
  gitignore : String
  readme : Option String
deriving DecidableEq, Repr

/-- The `init` command (source lines 132-175).  `.error ()` models `sys.exit(1)` reached
before any file write; `.ok r` collects the writes performed. -/
def init (confExists : Bool) (globalConf : Option Config) (prompts : Prompts)
    (dirName : String) (readmeExists : Bool) : Except Unit InitResult :=
  if confExists then .error ()
  else
    let seed := globalConf.getD ⟨"", "", "", ""⟩
    let conf := initFill seed prompts dirName
    .ok ⟨conf, GIT_IGNORE,
      if readmeExists then none
      else some ("# s3://" ++ conf.s3_bucket ++ "/" ++ conf.s3_path_prefix ++ "\n")⟩

/-- The kind of a directory entry, distinguishing the three deletion branches
of `clean` (source lines 185-190). -/
inductive FKind
  | file
  | dir
  | symlink
deriving DecidableEq, Repr

/-- A direct child of the current directory. -/
structure Entry where
  name : String
  kind : FKind
deriving DecidableEq, Repr

/-- What a run of `clean` did: the entries printed, the directory listing
afterwards, and the `rm -rf` child processes spawned with their exit
statuses. -/
structure CleanResult where
  printed : List String
  remaining : List Entry
  spawns : List (List String × Nat)
deriving DecidableEq, Repr

/-- The `clean` command (source lines 178-190) over the directory listing: entries named
in `CLEAN_IGNORE` are skipped; every other entry is printed and, unless in
dry-run, removed — files and symlinks by `unlink`, directories by a spawned
`rm -rf` whose exit status (given by `rmExit`) the source never checks. -/
def clean (dryrun : Bool) (rmExit : String → Nat) : List Entry → CleanResult
  | [] => ⟨[], [], []⟩
  | f :: fs =>
    let r := clean dryrun rmExit fs
    if CLEAN_IGNORE.contains f.name then ⟨r.printed, f :: r.remaining, r.spawns⟩
    else if dryrun then ⟨f.name :: r.printed, f :: r.remaining, r.spawns⟩
    else
      match f.kind with
      | .file => ⟨f.name :: r.printed, r.remaining, r.spawns⟩
      | .dir => ⟨f.name :: r.printed, r.remaining,
          (["rm", "-rf", f.name], rmExit f.name) :: r.spawns⟩
      | .symlink => ⟨f.name :: r.printed, r.remaining, r.spawns⟩

/-- The command-resolution step of `run` (source lines 210-214): an empty
positional command is replaced through the direction heuristic. -/
def resolve_command (command : String) (entries : List String) : String :=
  if command = "" then
    if check_no_local_files entries then "download" else "upload"
  else command

/-- Everything outside the program that a run can observe: the parsed project
and global config files (`none` when absent), the prompt answers, the resolved
current directory's base name, whether a readme exists, the directory listing,
and the exit statuses the spawned child processes would return. -/
structure World where
  confFile : Option Config
  globalConf : Option Config
  prompts : Prompts
  dirName : String
  readmeExists : Bool
  entries : List Entry
  awsExit : Nat
  rmExit : String → Nat

/-- A file write performed by `init`. -/
inductive WriteEvent
  | confFile (c : Config)
  | gitignore (content : String)
  | readme (content : String)
deriving DecidableEq, Repr

/-- The writes of a successful `init` in source order (source lines 165-173). -/
def initWrites (r : InitResult) : List WriteEvent :=
  [.confFile r.conf, .gitignore r.gitignore] ++
    (match r.readme with
     | none => []
     | some s => [.readme s])

/-- The observable outcome of one invocation: the process exit status, the
lines printed, the child processes spawned with their exit statuses, the
directory listing afterwards, and the files written. -/
structure RunResult where
  exitCode : Nat
  prints : List String
  spawns : List (List String × Nat)
  entries : List Entry
  written : List WriteEvent

/-- The `run` entry point (source lines 193-230).  `command` is the parsed positional argument
(defaulting to the empty string) and `dryrun` the `-d` flag.  A Python
exception escaping `run` — `run_command`'s `check=True` on a non-zero `aws`
exit, or the `load_conf` failure — terminates the interpreter with status 1;
`sys.exit(1)` likewise.  The `rm -rf` spawned by `clean` is run without
`check=True`, so its status is recorded but never consulted. -/
def runFull (command : String) (dryrun : Bool) (w : World) : RunResult :=
  let cmd := resolve_command command (w.entries.map Entry.name)
  if cmd = "init" then
    match init (check_no_conf w.confFile) w.globalConf w.prompts w.dirName w.readmeExists with
    | .error _ =>
        ⟨1, ["s3-project-backup.json already exists"], [], w.entries, []⟩
    | .ok r =>
        ⟨0, ["created s3-project-backup.json"], [], w.entries, initWrites r⟩
  else if check_no_conf w.confFile = false then
    ⟨1, ["s3-project-backup.json not found.",
         "please run `s3-project-backup init` ."], [], w.entries, []⟩
  else if cmd = "download" then
    match load_conf w.confFile w.dirName with
    | .error e => ⟨1, [e], [], w.entries, []⟩
    | .ok conf =>
        let v := download_cmd conf dryrun
        ⟨if w.awsExit = 0 then 0 else 1,
         ["download from " ++ build_s3_path conf ++ " to local directory.",
          "$ " ++ shlex_join v],
         [(v, w.awsExit)], w.entries, []⟩
  else if cmd = "upload" then
    match load_conf w.confFile w.dirName with
    | .error e => ⟨1, [e], [], w.entries, []⟩
    | .ok conf =>
        let v := upload_cmd conf dryrun
        ⟨if w.awsExit = 0 then 0 else 1,
         ["upload from local directory to " ++ build_s3_path conf ++ " .",
          "$ " ++ shlex_join v],
         [(v, w.awsExit)], w.entries, []⟩
  else if cmd = "clean" then
    let r := clean dryrun w.rmExit w.entries
    ⟨0, r.printed, r.spawns, r.remaining, []⟩
  else
    ⟨0, [], [], w.entries, []⟩

/-- The number of consecutive `/` characters a string ends with, used to state
the trailing-slash property of `build_s3_path`. -/
def trailingSlashes (s : String) : Nat :=
  (s.data.reverse.takeWhile (fun c => c == '/')).length

/-! ## Helper lemmas on strings and lists -/

theorem data_take_append (b v : String) (n : Nat) (h : n ≤ b.data.length) :
    ((b ++ v).data).take n = b.data.take n := by
  have hd : (b ++ v).data = b.data ++ v.data := rfl
  rw [hd, List.take_append_of_le_length h]

theorem lit_ne_append (a b v : String) (n : Nat) (hb : n ≤ b.data.length)
    (h : a.data.take n ≠ b.data.take n) : a ≠ b ++ v := by
  intro he
  exact h (by rw [he, data_take_append b v n hb])

theorem append_ne_append (a u b v : String) (n : Nat) (ha : n ≤ a.data.length)
    (hb : n ≤ b.data.length) (h : a.data.take n ≠ b.data.take n) :
    a ++ u ≠ b ++ v := by
  intro he
  exact h (by rw [← data_take_append a u n ha, he, data_take_append b v n hb])

theorem takeWhile_cons_true {α : Type} (p : α → Bool) (a : α) (l : List α)
    (h : p a = true) : (a :: l).takeWhile p = a :: l.takeWhile p := by
  simp [List.takeWhile, h]

theorem takeWhile_cons_false {α : Type} (p : α → Bool) (a : α) (l : List α)
    (h : p a = false) : (a :: l).takeWhile p = [] := by
  simp [List.takeWhile, h]

/-! ## C3: config loading and the DIRNAME sentinel -/

/-- C3: for every parseable config file, loading one whose `s3_path_prefix`
equals the sentinel `DIRNAME` yields a config whose prefix is the resolved
current directory's base name with every other field unchanged, and loading
one with any other prefix value is the identity on the whole config. -/
theorem load_conf_sentinel_spec (c : Config) (dirName : String) :
    ( c.s3_path_prefix = "DIRNAME" →
      load_conf (some c) dirName =
        .ok ⟨c.aws_profile, c.s3_bucket, dirName, c.s3_storage_class⟩) ∧
    ( c.s3_path_prefix ≠ "DIRNAME" → load_conf (some c) dirName = .ok c) := by
  constructor
  · intro h
    simp [load_conf, h]
  · intro h
    simp [load_conf, h]

theorem load_conf_sentinel_spec_witness :
    load_conf (some ⟨"me", "bkt", "DIRNAME", "STANDARD"⟩) "proj" =
      .ok ⟨"me", "bkt", "proj", "STANDARD"⟩ ∧
    load_conf (some ⟨"me", "bkt", "docs", "STANDARD"⟩) "proj" =
      .ok ⟨"me", "bkt", "docs", "STANDARD"⟩ :=
  ⟨(load_conf_sentinel_spec ⟨"me", "bkt", "DIRNAME", "STANDARD"⟩ "proj").1 rfl,
   (load_conf_sentinel_spec ⟨"me", "bkt", "docs", "STANDARD"⟩ "proj").2 (by decide)⟩

/-! ## C4: the shape of the remote URI -/

/-- C4 counterexample: with the non-empty bucket `b` and the non-empty prefix
`a/`, the remote URI ends in two slashes, not exactly one, so the claim as
stated fails. -/
theorem build_s3_path_counterexample :
    ("b" : String) ≠ "" ∧ ("a/" : String) ≠ "" ∧
    build_s3_path ⟨"me", "b", "a/", "STANDARD"⟩ = "s3://b/a//" ∧
    trailingSlashes (build_s3_path ⟨"me", "b", "a/", "STANDARD"⟩) = 2 :=
  ⟨by decide, by decide, by decide, by decide⟩

/-- C4 (amended): the remote-URI builder returns exactly
`s3://<bucket>/<prefix>/` for every config, and when the bucket and the prefix
are non-empty and the prefix does not itself end in a slash the result ends in
exactly one trailing slash. -/
theorem build_s3_path_spec (conf : Config)
    (hb : conf.s3_bucket ≠ "") (hp : conf.s3_path_prefix ≠ "")
    (hslash : conf.s3_path_prefix.data.getLast? ≠ some '/') :
    build_s3_path conf =
      "s3://" ++ conf.s3_bucket ++ "/" ++ conf.s3_path_prefix ++ "/" ∧
    trailingSlashes (build_s3_path conf) = 1 := by
  refine ⟨rfl, ?_⟩
  have hd : conf.s3_path_prefix.data.reverse ≠ [] := by
    intro h0
    exact hp (String.ext (by simpa using h0))
  obtain ⟨c, cs, hcons⟩ := List.exists_cons_of_ne_nil hd
  have hc : c ≠ '/' := by
    intro hc0
    apply hslash
    rw [← List.head?_reverse, hcons, hc0]
    rfl
  rw [trailingSlashes, build_s3_path]
  simp only [String.data_append, List.reverse_append, List.reverse_cons,
    List.reverse_nil, List.nil_append, List.append_assoc, List.cons_append, hcons]
  rw [takeWhile_cons_true _ _ _ (by decide),
    takeWhile_cons_false (fun x => x == '/') c _ (beq_eq_false_iff_ne.mpr hc)]
  rfl

theorem build_s3_path_spec_witness :
    build_s3_path ⟨"me", "b", "a", "STANDARD"⟩ =
      "s3://" ++ "b" ++ "/" ++ "a" ++ "/" ∧
    trailingSlashes (build_s3_path ⟨"me", "b", "a", "STANDARD"⟩) = 1 :=
  build_s3_path_spec ⟨"me", "b", "a", "STANDARD"⟩ (by decide) (by decide) (by decide)

/-! ## C5: the direction heuristic -/

/-- C5: the heuristic is true iff every immediate child's name is in the
exclusion set or the duplicated-items set; adding one non-listed entry makes
it false; a directory holding only the config file and the readme selects
download while the same directory with an extra `src` entry selects upload. -/
theorem check_no_local_files_spec (entries : List String) (x : String) :
    (check_no_local_files entries = true ↔
      ∀ n ∈ entries, n ∈ EXCLUDE_ITEMS ∨ n ∈ DUPLICATED_ITEMS) ∧
    (x ∉ EXCLUDE_ITEMS → x ∉ DUPLICATED_ITEMS →
      check_no_local_files (entries ++ [x]) = false) ∧
    resolve_command "" ["s3-project-backup.json", "README.md"] = "download" ∧
    resolve_command "" ["s3-project-backup.json", "README.md", "src"] = "upload" := by
  refine ⟨?_, ?_, by decide, by decide⟩
  · simp [check_no_local_files, List.all_eq_true, List.elem_iff]
  · intro h1 h2
    apply List.all_eq_false.mpr
    exact ⟨x, by simp, by simp [List.elem_iff, h1, h2]⟩

theorem check_no_local_files_spec_witness :
    check_no_local_files (["README.md"] ++ ["src"]) = false :=
  (check_no_local_files_spec ["README.md"] "src").2.1 (by decide) (by decide)

/-! ## C2: the sync argument vectors -/

theorem ne_of_head_ne (a b : String) (h : a.data.head? ≠ b.data.head?) : a ≠ b := by
  intro he
  exact h (by rw [he])

theorem s3path_head (conf : Config) : (build_s3_path conf).data.head? = some 's' := by
  simp [build_s3_path, String.data_append, List.head?_append]

theorem append_head (b v : String) (c : Char) (hc : b.data.head? = some c) :
    ((b ++ v).data).head? = some c := by
  rw [String.data_append, List.head?_append, hc]
  rfl

/-- Disposes of each equality a storage-class argument cannot satisfy among
the non-storage-class elements of a sync vector. -/
theorem storage_arg_cases (conf : Config) (v : String)
    (h : "--storage-class=" ++ v = "aws" ∨
      "--storage-class=" ++ v = "--profile=" ++ conf.aws_profile ∨
      "--storage-class=" ++ v = "s3" ∨
      "--storage-class=" ++ v = "sync" ∨
      "--storage-class=" ++ v = build_s3_path conf ∨
      "--storage-class=" ++ v = "." ∨
      "--storage-class=" ++ v = "--delete" ∨
      (∃ e ∈ EXCLUDE_ITEMS, "--exclude=" ++ e = "--storage-class=" ++ v) ∨
      "--storage-class=" ++ v = "--dryrun") : False := by
  rcases h with h | h | h | h | h | h | h | ⟨e, _, h⟩ | h
  · exact lit_ne_append "aws" "--storage-class=" v 1 (by decide) (by decide) h.symm
  · exact append_ne_append "--storage-class=" v "--profile=" conf.aws_profile 3
      (by decide) (by decide) (by decide) h
  · exact lit_ne_append "s3" "--storage-class=" v 1 (by decide) (by decide) h.symm
  · exact lit_ne_append "sync" "--storage-class=" v 1 (by decide) (by decide) h.symm
  · exact ne_of_head_ne (build_s3_path conf) ("--storage-class=" ++ v)
      (by rw [s3path_head, append_head "--storage-class=" v '-' (by decide)]; decide)
      h.symm
  · exact lit_ne_append "." "--storage-class=" v 1 (by decide) (by decide) h.symm
  · exact lit_ne_append "--delete" "--storage-class=" v 3 (by decide) (by decide) h.symm
  · exact append_ne_append "--exclude=" e "--storage-class=" v 3
      (by decide) (by decide) (by decide) h
  · exact lit_ne_append "--dryrun" "--storage-class=" v 3 (by decide) (by decide) h.symm

/-- No element of the download vector is a storage-class argument. -/
theorem storage_not_mem_download (conf : Config) (dryrun : Bool) (v : String) :
    ("--storage-class=" ++ v) ∉ download_cmd conf dryrun := by
  intro hmem
  cases dryrun
  case false =>
    simp only [download_cmd, List.mem_append, List.mem_cons, List.mem_map,
      List.not_mem_nil, or_false, or_assoc, Bool.false_eq_true, if_false,
      ite_false, ite_true] at hmem
    apply storage_arg_cases conf v
    rcases hmem with h | h | h | h | h | h | h | h
    exacts [Or.inl h, Or.inr (Or.inl h), Or.inr (Or.inr (Or.inl h)),
      Or.inr (Or.inr (Or.inr (Or.inl h))),
      Or.inr (Or.inr (Or.inr (Or.inr (Or.inl h)))),
      Or.inr (Or.inr (Or.inr (Or.inr (Or.inr (Or.inl h))))),
      Or.inr (Or.inr (Or.inr (Or.inr (Or.inr (Or.inr (Or.inl h)))))),
      Or.inr (Or.inr (Or.inr (Or.inr (Or.inr (Or.inr (Or.inr (Or.inl h)))))))]
  case true =>
    simp only [download_cmd, List.mem_append, List.mem_cons, List.mem_map,
      List.not_mem_nil, or_false, or_assoc, Bool.false_eq_true, if_false,
      ite_false, ite_true] at hmem
    exact storage_arg_cases conf v hmem

theorem aws_ne_excl (e : String) : "aws" ≠ "--exclude=" ++ e :=
  lit_ne_append "aws" "--exclude=" e 1 (by decide) (by decide)

theorem profile_ne_excl (p e : String) : "--profile=" ++ p ≠ "--exclude=" ++ e :=
  append_ne_append "--profile=" p "--exclude=" e 3 (by decide) (by decide) (by decide)

theorem s3_ne_excl (e : String) : "s3" ≠ "--exclude=" ++ e :=
  lit_ne_append "s3" "--exclude=" e 1 (by decide) (by decide)

theorem sync_ne_excl (e : String) : "sync" ≠ "--exclude=" ++ e :=
  lit_ne_append "sync" "--exclude=" e 1 (by decide) (by decide)

theorem dot_ne_excl (e : String) : "." ≠ "--exclude=" ++ e :=
  lit_ne_append "." "--exclude=" e 1 (by decide) (by decide)

theorem s3path_ne_excl (conf : Config) (e : String) :
    build_s3_path conf ≠ "--exclude=" ++ e :=
  ne_of_head_ne _ _
    (by rw [s3path_head, append_head "--exclude=" e '-' (by decide)]; decide)

theorem storage_ne_excl (c e : String) :
    "--storage-class=" ++ c ≠ "--exclude=" ++ e :=
  append_ne_append "--storage-class=" c "--exclude=" e 3
    (by decide) (by decide) (by decide)

theorem delete_ne_excl (e : String) : "--delete" ≠ "--exclude=" ++ e :=
  lit_ne_append "--delete" "--exclude=" e 3 (by decide) (by decide)

theorem dryrun_ne_excl (e : String) : "--dryrun" ≠ "--exclude=" ++ e :=
  lit_ne_append "--dryrun" "--exclude=" e 3 (by decide) (by decide)

/-- C2: for every config, direction and dry-run flag — the upload vector
places the local path `.` before the remote URI and contains the
storage-class argument; the download vector places the remote URI before the
local path `.` and contains no storage-class argument; both contain the
mirror-delete flag `--delete` and exactly one `--exclude=` argument per entry
of the exclusion list in list order (the exclusion block appears verbatim and
no other element is an `--exclude=` argument, the list being duplicate-free);
and under dry-run the simulate flag `--dryrun` is the last element of both. -/
theorem sync_cmd_spec (conf : Config) (dryrun : Bool) :
    (∃ l₁ l₂, upload_cmd conf dryrun = l₁ ++ "." :: build_s3_path conf :: l₂) ∧
    ("--storage-class=" ++ conf.s3_storage_class) ∈ upload_cmd conf dryrun ∧
    (∃ l₁ l₂, download_cmd conf dryrun = l₁ ++ build_s3_path conf :: "." :: l₂) ∧
    (∀ v, ("--storage-class=" ++ v) ∉ download_cmd conf dryrun) ∧
    "--delete" ∈ upload_cmd conf dryrun ∧
    "--delete" ∈ download_cmd conf dryrun ∧
    (∃ l₁ l₂, upload_cmd conf dryrun
        = l₁ ++ EXCLUDE_ITEMS.map (fun e => "--exclude=" ++ e) ++ l₂ ∧
      ∀ s ∈ l₁ ++ l₂, ∀ e, s ≠ "--exclude=" ++ e) ∧
    (∃ l₁ l₂, download_cmd conf dryrun
        = l₁ ++ EXCLUDE_ITEMS.map (fun e => "--exclude=" ++ e) ++ l₂ ∧
      ∀ s ∈ l₁ ++ l₂, ∀ e, s ≠ "--exclude=" ++ e) ∧
    EXCLUDE_ITEMS.Nodup ∧
    (dryrun = true → (upload_cmd conf dryrun).getLast? = some "--dryrun" ∧
      (download_cmd conf dryrun).getLast? = some "--dryrun") := by
  have up_true (c : Config) : upload_cmd c true = upload_cmd c false ++ ["--dryrun"] := rfl
  have dn_true (c : Config) : download_cmd c true = download_cmd c false ++ ["--dryrun"] := rfl
  refine ⟨?_, ?_, ?_, fun v => storage_not_mem_download conf dryrun v, ?_, ?_, ?_, ?_,
    by decide, ?_⟩
  · cases dryrun
    case false =>
      exact ⟨["aws", "--profile=" ++ conf.aws_profile, "s3", "sync"],
        ("--storage-class=" ++ conf.s3_storage_class) :: "--delete"
          :: EXCLUDE_ITEMS.map (fun e => "--exclude=" ++ e), rfl⟩
    case true =>
      exact ⟨["aws", "--profile=" ++ conf.aws_profile, "s3", "sync"],
        ("--storage-class=" ++ conf.s3_storage_class) :: "--delete"
          :: (EXCLUDE_ITEMS.map (fun e => "--exclude=" ++ e) ++ ["--dryrun"]), rfl⟩
  · cases dryrun <;> simp [upload_cmd]
  · cases dryrun
    case false =>
      exact ⟨["aws", "--profile=" ++ conf.aws_profile, "s3", "sync"],
        "--delete" :: EXCLUDE_ITEMS.map (fun e => "--exclude=" ++ e), rfl⟩
    case true =>
      exact ⟨["aws", "--profile=" ++ conf.aws_profile, "s3", "sync"],
        "--delete" :: (EXCLUDE_ITEMS.map (fun e => "--exclude=" ++ e)
          ++ ["--dryrun"]), rfl⟩
  · cases dryrun <;> simp [upload_cmd]
  · cases dryrun <;> simp [download_cmd]
  · cases dryrun
    case false =>
      refine ⟨["aws", "--profile=" ++ conf.aws_profile, "s3", "sync", ".",
          build_s3_path conf, "--storage-class=" ++ conf.s3_storage_class,
          "--delete"], [], rfl, ?_⟩
      intro s hs e
      simp only [List.mem_append, List.mem_cons, List.not_mem_nil, or_false,
        or_assoc] at hs
      rcases hs with rfl | rfl | rfl | rfl | rfl | rfl | rfl | rfl
      exacts [aws_ne_excl e, profile_ne_excl conf.aws_profile e, s3_ne_excl e,
        sync_ne_excl e, dot_ne_excl e, s3path_ne_excl conf e,
        storage_ne_excl conf.s3_storage_class e, delete_ne_excl e]
    case true =>
      refine ⟨["aws", "--profile=" ++ conf.aws_profile, "s3", "sync", ".",
          build_s3_path conf, "--storage-class=" ++ conf.s3_storage_class,
          "--delete"], ["--dryrun"], rfl, ?_⟩
      intro s hs e
      simp only [List.mem_append, List.mem_cons, List.not_mem_nil, or_false,
        or_assoc] at hs
      rcases hs with rfl | rfl | rfl | rfl | rfl | rfl | rfl | rfl | rfl
      exacts [aws_ne_excl e, profile_ne_excl conf.aws_profile e, s3_ne_excl e,
        sync_ne_excl e, dot_ne_excl e, s3path_ne_excl conf e,
        storage_ne_excl conf.s3_storage_class e, delete_ne_excl e,
        dryrun_ne_excl e]
  · cases dryrun
    case false =>
      refine ⟨["aws", "--profile=" ++ conf.aws_profile, "s3", "sync",
          build_s3_path conf, ".", "--delete"], [], rfl, ?_⟩
      intro s hs e
      simp only [List.mem_append, List.mem_cons, List.not_mem_nil, or_false,
        or_assoc] at hs
      rcases hs with rfl | rfl | rfl | rfl | rfl | rfl | rfl
      exacts [aws_ne_excl e, profile_ne_excl conf.aws_profile e, s3_ne_excl e,
        sync_ne_excl e, s3path_ne_excl conf e, dot_ne_excl e, delete_ne_excl e]
    case true =>
      refine ⟨["aws", "--profile=" ++ conf.aws_profile, "s3", "sync",
          build_s3_path conf, ".", "--delete"], ["--dryrun"], rfl, ?_⟩
      intro s hs e
      simp only [List.mem_append, List.mem_cons, List.not_mem_nil, or_false,
        or_assoc] at hs
      rcases hs with rfl | rfl | rfl | rfl | rfl | rfl | rfl | rfl
      exacts [aws_ne_excl e, profile_ne_excl conf.aws_profile e, s3_ne_excl e,
        sync_ne_excl e, s3path_ne_excl conf e, dot_ne_excl e, delete_ne_excl e,
        dryrun_ne_excl e]
  · intro hd
    subst hd
    exact ⟨by rw [up_true, List.getLast?_concat],
      by rw [dn_true, List.getLast?_concat]⟩


theorem sync_cmd_spec_witness :
    ((upload_cmd ⟨"me", "bkt", "proj", "GLACIER"⟩ true).getLast?
        = some "--dryrun") ∧
    ((download_cmd ⟨"me", "bkt", "proj", "GLACIER"⟩ true).getLast?
        = some "--dryrun") :=
  (sync_cmd_spec ⟨"me", "bkt", "proj", "GLACIER"⟩ true).2.2.2.2.2.2.2.2.2 rfl

/-! ## C6: the effect of clean on the directory -/

/-- C6: `clean` in dry-run mode only reports the names of the non-ignored
entries and leaves the directory listing unchanged; in live mode it removes
every direct child whose name is not in the combined exclusion/duplication
list and keeps exactly the listed entries, untouched and in order. -/
theorem clean_spec (rmExit : String → Nat) (entries : List Entry) :
    (clean true rmExit entries).remaining = entries ∧
    (clean true rmExit entries).printed =
      (entries.filter (fun f => !(CLEAN_IGNORE.contains f.name))).map Entry.name ∧
    (clean false rmExit entries).remaining =
      entries.filter (fun f => CLEAN_IGNORE.contains f.name) := by
  induction entries with
  | nil => exact ⟨rfl, rfl, rfl⟩
  | cons f fs ih =>
    obtain ⟨ih1, ih2, ih3⟩ := ih
    by_cases hf : f.name ∈ CLEAN_IGNORE
    · exact ⟨by simp [clean, hf, ih1],
        by simp [clean, hf, ih2, List.filter_cons],
        by simp [clean, hf, ih3, List.filter_cons]⟩
    · refine ⟨by simp [clean, hf, ih1],
        by simp [clean, hf, ih2, List.filter_cons], ?_⟩
      rcases f with ⟨n, k⟩
      cases k <;> simp_all [clean, List.filter_cons]

/-! ## C7: init refuses to overwrite an existing config -/

/-- C7: when the project config file already exists, running `init` exits
with status 1 and performs no file write at all. -/
theorem init_refuses_spec (w : World) (c : Config) (dryrun : Bool)
    (hc : w.confFile = some c) :
    (runFull "init" dryrun w).exitCode = 1 ∧
    (runFull "init" dryrun w).written = [] ∧
    init true w.globalConf w.prompts w.dirName w.readmeExists = .error () := by
  refine ⟨?_, ?_, rfl⟩ <;> simp [runFull, resolve_command, check_no_conf, hc, init]

theorem init_refuses_spec_witness :
    (runFull "init" false
        ⟨some ⟨"me", "bkt", "proj", "STANDARD"⟩, none, ⟨"", "", "", ""⟩, "dir",
          false, [], 0, fun _ => 0⟩).exitCode = 1 ∧
    (runFull "init" false
        ⟨some ⟨"me", "bkt", "proj", "STANDARD"⟩, none, ⟨"", "", "", ""⟩, "dir",
          false, [], 0, fun _ => 0⟩).written = [] ∧
    init true none ⟨"", "", "", ""⟩ "dir" false = .error () :=
  init_refuses_spec
    ⟨some ⟨"me", "bkt", "proj", "STANDARD"⟩, none, ⟨"", "", "", ""⟩, "dir",
      false, [], 0, fun _ => 0⟩
    ⟨"me", "bkt", "proj", "STANDARD"⟩ false rfl

/-! ## C8: what a first-run init writes -/

/-- C8 counterexample: with all prompts answered non-empty in an empty root,
the readme `init` writes holds the remote location without the trailing slash,
so it does not contain the URI produced by `build_s3_path`. -/
theorem init_readme_counterexample :
    init false none ⟨"me", "bkt", "proj", "STANDARD"⟩ "dir" false =
      .ok ⟨⟨"me", "bkt", "proj", "STANDARD"⟩, GIT_IGNORE, some "# s3://bkt/proj\n"⟩ ∧
    build_s3_path ⟨"me", "bkt", "proj", "STANDARD"⟩ = "s3://bkt/proj/" ∧
    ¬ List.IsInfix ("s3://bkt/proj/").data ("# s3://bkt/proj\n").data :=
  ⟨rfl, by decide, by decide⟩

/-- C8 (amended): init in an empty project root with no global template and
every prompt answered non-empty writes a config holding exactly the four
supplied values, the ignore file byte-for-byte equal to the fixed template,
and — the readme being absent — a readme holding the resolved remote location
without the URI builder's trailing slash: `# s3://<bucket>/<prefix>`. -/
theorem init_empty_root_spec (p : Prompts) (dirName : String)
    (h1 : p.aws_profile ≠ "") (h2 : p.s3_bucket ≠ "") (h3 : p.s3_path_prefix ≠ "")
    (h4 : p.s3_storage_class ≠ "") :
    init false none p dirName false =
      .ok ⟨⟨p.aws_profile, p.s3_bucket, p.s3_path_prefix, p.s3_storage_class⟩,
        GIT_IGNORE,
        some ("# s3://" ++ p.s3_bucket ++ "/" ++ p.s3_path_prefix ++ "\n")⟩ := by
  simp [init, initFill, h1, h2, h3, h4]

theorem init_empty_root_spec_witness :
    init false none ⟨"me", "bkt", "proj", "GLACIER"⟩ "dir" false =
      .ok ⟨⟨"me", "bkt", "proj", "GLACIER"⟩, GIT_IGNORE,
        some ("# s3://" ++ "bkt" ++ "/" ++ "proj" ++ "\n")⟩ :=
  init_empty_root_spec ⟨"me", "bkt", "proj", "GLACIER"⟩ "dir"
    (by decide) (by decide) (by decide) (by decide)

/-! ## C9: the init seed and prompt defaults -/

/-- C9: with no global template, init starts from the all-empty record, so
every field is prompted; the path-prefix prompt defaults to the current
directory's base name on empty input and the storage-class prompt defaults to
`STANDARD` on empty input, every non-empty answer being taken verbatim. -/
theorem init_seed_spec (p : Prompts) (dirName : String) (readmeExists : Bool) :
    init false none p dirName readmeExists =
      .ok ⟨⟨p.aws_profile, p.s3_bucket,
          (if p.s3_path_prefix = "" then dirName else p.s3_path_prefix),
          (if p.s3_storage_class = "" then "STANDARD" else p.s3_storage_class)⟩,
        GIT_IGNORE,
        if readmeExists then none
        else some ("# s3://" ++ p.s3_bucket ++ "/"
          ++ (if p.s3_path_prefix = "" then dirName else p.s3_path_prefix)
          ++ "\n")⟩ := by
  by_cases h3 : p.s3_path_prefix = "" <;> by_cases h4 : p.s3_storage_class = "" <;>
    simp [init, initFill, h3, h4]

/-! ## C10: unknown commands are silently ignored -/

/-- C10: for any positional command other than `init`, `upload`, `download`,
`clean` and the empty string, when the config file exists the run performs no
action at all — no spawn, no print, no deletion, no write — and exits 0. -/
theorem unknown_command_spec (command : String) (dryrun : Bool) (w : World)
    (hconf : w.confFile.isSome = true)
    (h1 : command ≠ "") (h2 : command ≠ "init") (h3 : command ≠ "upload")
    (h4 : command ≠ "download") (h5 : command ≠ "clean") :
    runFull command dryrun w = ⟨0, [], [], w.entries, []⟩ := by
  simp [runFull, resolve_command, check_no_conf, hconf, h1, h2, h3, h4, h5]

theorem unknown_command_spec_witness :
    runFull "status" false
        ⟨some ⟨"me", "bkt", "proj", "STANDARD"⟩, none, ⟨"", "", "", ""⟩, "dir",
          false, [⟨"src", FKind.dir⟩], 0, fun _ => 0⟩ =
      ⟨0, [], [], [⟨"src", FKind.dir⟩], []⟩ :=
  unknown_command_spec "status" false
    ⟨some ⟨"me", "bkt", "proj", "STANDARD"⟩, none, ⟨"", "", "", ""⟩, "dir",
      false, [⟨"src", FKind.dir⟩], 0, fun _ => 0⟩
    rfl (by decide) (by decide) (by decide) (by decide) (by decide)

/-! ## C1: exit statuses -/

theorem load_conf_some (c : Config) (d : String) :
    ∃ cf, load_conf (some c) d = .ok cf := by
  unfold load_conf
  by_cases hp : c.s3_path_prefix = "DIRNAME" <;> simp [hp]

/-- C1 counterexample: with the config present and a single directory entry
`junk` whose `rm -rf` exits 2, `clean` spawns that failing delete process yet
the program exits 0 — the delete primitive's non-zero exit is not propagated,
so the claim as stated fails. -/
theorem run_exit_counterexample :
    (runFull "clean" false
        ⟨some ⟨"me", "bkt", "proj", "STANDARD"⟩, none, ⟨"", "", "", ""⟩, "dir",
          false, [⟨"junk", FKind.dir⟩], 0, fun _ => 2⟩).spawns
      = [(["rm", "-rf", "junk"], 2)] ∧
    (runFull "clean" false
        ⟨some ⟨"me", "bkt", "proj", "STANDARD"⟩, none, ⟨"", "", "", ""⟩, "dir",
          false, [⟨"junk", FKind.dir⟩], 0, fun _ => 2⟩).exitCode = 0 :=
  ⟨rfl, rfl⟩

/-- C1 (amended): the process exits non-zero exactly when `init` is selected
while the config file exists, when the config file is missing for any
non-init command, or when the `aws s3 sync` invocation exits non-zero; the
exit status of the `rm -rf` delete primitive spawned by `clean` is ignored,
and a sync run spawns its external process exactly once (no retry). -/
theorem run_exit_spec (command : String) (dryrun : Bool) (w : World) :
    ((runFull command dryrun w).exitCode ≠ 0 ↔
      (resolve_command command (w.entries.map Entry.name) = "init" ∧
        w.confFile.isSome = true) ∨
      (resolve_command command (w.entries.map Entry.name) ≠ "init" ∧
        w.confFile = none) ∨
      ((resolve_command command (w.entries.map Entry.name) = "download" ∨
          resolve_command command (w.entries.map Entry.name) = "upload") ∧
        w.confFile.isSome = true ∧ w.awsExit ≠ 0)) ∧
    ((resolve_command command (w.entries.map Entry.name) = "download" ∨
        resolve_command command (w.entries.map Entry.name) = "upload") →
      w.confFile.isSome = true →
      (runFull command dryrun w).spawns.length = 1) := by
  simp only [runFull]
  generalize hcmd : resolve_command command (w.entries.map Entry.name) = cmd
  cases hc : w.confFile with
  | none =>
    by_cases h1 : cmd = "init"
    · subst h1
      simp [check_no_conf, init, initFill, hc]
    · simp [check_no_conf, hc, h1]
  | some c =>
    obtain ⟨cf, hcf⟩ := load_conf_some c w.dirName
    by_cases h1 : cmd = "init"
    · subst h1
      simp [check_no_conf, init, hc]
    · by_cases h2 : cmd = "download"
      · subst h2
        by_cases ha : w.awsExit = 0 <;> simp [check_no_conf, hc, hcf, ha]
      · by_cases h3 : cmd = "upload"
        · subst h3
          by_cases ha : w.awsExit = 0 <;> simp [check_no_conf, hc, hcf, ha]
        · by_cases h4 : cmd = "clean"
          · subst h4
            simp [check_no_conf, hc, h1]
          · simp [check_no_conf, hc, h1, h2, h3, h4]

theorem run_exit_spec_witness :
    (runFull "upload" false
        ⟨some ⟨"me", "bkt", "proj", "STANDARD"⟩, none, ⟨"", "", "", ""⟩, "dir",
          false, [], 1, fun _ => 0⟩).spawns.length = 1 :=
  (run_exit_spec "upload" false
      ⟨some ⟨"me", "bkt", "proj", "STANDARD"⟩, none, ⟨"", "", "", ""⟩, "dir",
        false, [], 1, fun _ => 0⟩).2
    (Or.inr rfl) rfl
